import Mathlib

/-!
Shallow embedding of the deque-lang virtual machine (`src/main.rs`).

The program text is a whitespace-separated token list; each token compiles
to an `Instruction` (operation string + `Direction`).  The VM owns a
double-ended queue of 64-bit signed integers (modelled as a `List Int`
whose head is the front) together with an instruction pointer `ip : Int`
(the Rust field is `i64`), a label table (the Rust `HashMap<String, i64>`,
modelled as an association list where the most recent insertion shadows
older ones, matching `HashMap::insert` overwrite semantics), and the
stdin/stdout streams (modelled as line lists so that `read`/`print` stay
executable).

Machine integers: values are `Int` with 64-bit two's-complement wrapping
(`wrap64`) applied exactly where release-mode Rust wraps (`+`, `-`, `<<`);
shift amounts are masked to six bits as Rust does in release mode.  The
claims under study never exercise arithmetic overflow, so the
debug/release difference is immaterial to them.

A Rust `panic!` / index-out-of-bounds abort is modelled as a distinct
outcome (`Option.none` for the loader, `RunResult.crash` for the engine),
kept separate from the recoverable `Result::Err` values the code returns
(`RunResult.err`).
-/

namespace DequeLang

/-- Model of Rust `str::ends_with(c)` for a single ASCII character:
true iff the last character is `c`. -/
def strEndsWithChar (s : String) (c : Char) : Bool :=
  s.data.getLast? == some c

/-- Model of Rust `str::starts_with(c)` for a single ASCII character:
true iff the first character is `c`. -/
def strStartsWithChar (s : String) (c : Char) : Bool :=
  s.data.head? == some c

/-- Model of the Rust byte slice `&s[..s.len() - 1]` as used on tokens whose
last character is ASCII (`:` or `!`): drop the last character. -/
def strDropLast (s : String) : String :=
  ⟨s.data.dropLast⟩

/-- Model of the Rust byte slice `&s[1..]` as used on tokens whose first
character is ASCII (`!`): drop the first character. -/
def strDropFirst (s : String) : String :=
  ⟨s.data.drop 1⟩

/-- Model of Rust `str::to_ascii_lowercase` (Lean's `Char.toLower` also
lowers only the ASCII range). -/
def strLowerAscii (s : String) : String :=
  ⟨s.data.map Char.toLower⟩

/-- The two ends of the deque (`enum Direction` in the source). -/
inductive Direction where
  | left
  | right
deriving DecidableEq, Repr

/-- `Direction::invert` from the source. -/
def Direction.invert : Direction → Direction
  | .left => .right
  | .right => .left

/-- `struct Instruction { op: String, direction: Direction }`. -/
structure Instruction where
  op : String
  direction : Direction
deriving DecidableEq, Repr

/-- Two's-complement wrap into the `i64` range, the value Rust produces for
wrapping arithmetic on `i64`. -/
def wrap64 (x : Int) : Int :=
  (x + 2 ^ 63) % 2 ^ 64 - 2 ^ 63

/-- The unsigned 64-bit pattern of an `i64` value (two's complement). -/
def toU64 (x : Int) : Nat :=
  (x % 2 ^ 64).toNat

/-- Reinterpret an unsigned 64-bit pattern as an `i64` value. -/
def ofU64 (n : Nat) : Int :=
  if n < 2 ^ 63 then (n : Int) else (n : Int) - 2 ^ 64

/-- Bitwise AND on `i64` values (`a & b`). -/
def i64And (a b : Int) : Int := ofU64 (Nat.land (toU64 a) (toU64 b))

/-- Bitwise OR on `i64` values (`a | b`). -/
def i64Or (a b : Int) : Int := ofU64 (Nat.lor (toU64 a) (toU64 b))

/-- Bitwise XOR on `i64` values (`a ^ b`). -/
def i64Xor (a b : Int) : Int := ofU64 (Nat.xor (toU64 a) (toU64 b))

/-- Bitwise complement on `i64` (`!a` in Rust): exact on `Int` as `-a - 1`. -/
def i64Not (a : Int) : Int := -a - 1

/-- Release-mode `b << a` on `i64`: the shift amount is the low six bits of
`a`'s pattern (`a.emod 64`), the result wraps. -/
def i64Shl (b a : Int) : Int := wrap64 (b * 2 ^ (a % 64).toNat)

/-- Release-mode `b >> a` on `i64`: arithmetic shift, i.e. floor division by
`2 ^ (a mod 64)`. -/
def i64Shr (b a : Int) : Int := Int.fdiv b (2 ^ (a % 64).toNat)

/-- Model of `str::parse::<i64>`: optional sign, one or more ASCII digits,
and the value must fit in `i64` (overflow is a parse error). -/
def parseI64 (s : String) : Option Int :=
  let cs := s.data
  let signed : Bool × List Char :=
    match cs with
    | '-' :: rest => (true, rest)
    | '+' :: rest => (false, rest)
    | _ => (false, cs)
  let ds := signed.2
  if ds.isEmpty then none
  else if ds.all Char.isDigit then
    let n : Nat := ds.foldl (fun acc c => acc * 10 + (c.toNat - 48)) 0
    let v : Int := if signed.1 then -(n : Int) else (n : Int)
    if -(2 ^ 63) ≤ v ∧ v ≤ 2 ^ 63 - 1 then some v else none
  else none

/-- The VM state: `struct VM { ip, program, labels, data }`, extended with
the stdin/stdout line streams so `read`/`readc`/`print`/`printc`/`trace`
stay executable. -/
structure VM where
  ip : Int
  program : List Instruction
  labels : List (String × Int)
  data : List Int
  input : List String
  output : List String
deriving DecidableEq, Repr

/-- `VM::new()` (streams start empty; stdin is supplied per run). -/
def VM.new : VM :=
  { ip := 0, program := [], labels := [], data := [], input := [], output := [] }

/-- The error message `VM::pop` produces for each end. -/
def popErrMsg : Direction → String
  | .left => "Could not pop from front of deque."
  | .right => "Could not pop from back of deque."

/-- `VM::pop`: `pop_front` for Left, `pop_back` for Right; popping an empty
deque yields the recoverable error message. -/
def VM.pop (vm : VM) (dir : Direction) : Except String (Int × VM) :=
  match dir with
  | .left =>
    match vm.data with
    | [] => .error (popErrMsg .left)
    | x :: xs => .ok (x, { vm with data := xs })
  | .right =>
    match vm.data.reverse with
    | [] => .error (popErrMsg .right)
    | x :: xs => .ok (x, { vm with data := xs.reverse })

/-- `VM::push`: `push_front` for Left, `push_back` for Right. -/
def VM.push (vm : VM) (dir : Direction) (val : Int) : VM :=
  match dir with
  | .left => { vm with data := val :: vm.data }
  | .right => { vm with data := vm.data ++ [val] }

/-! Opcode handlers.  Each mirrors the Rust method of the same name: it
returns the error (if any) together with the VM state at that point,
because the Rust methods mutate `self` in place, so a failing second pop
leaves the first pop's effect behind. -/

/-- `VM::add`: pop `a`, pop `b`, push `a + b`. -/
def VM.add (vm : VM) (dir : Direction) : Option String × VM :=
  match vm.pop dir with
  | .error e => (some e, vm)
  | .ok (a, vm1) =>
    match vm1.pop dir with
    | .error e => (some e, vm1)
    | .ok (b, vm2) => (none, vm2.push dir (wrap64 (a + b)))

/-- `VM::sub`: pop `a`, pop `b`, push `b - a`. -/
def VM.sub (vm : VM) (dir : Direction) : Option String × VM :=
  match vm.pop dir with
  | .error e => (some e, vm)
  | .ok (a, vm1) =>
    match vm1.pop dir with
    | .error e => (some e, vm1)
    | .ok (b, vm2) => (none, vm2.push dir (wrap64 (b - a)))

/-- `VM::jmp`: pop the target and store it in `ip`. -/
def VM.jmp (vm : VM) (dir : Direction) : Option String × VM :=
  match vm.pop dir with
  | .error e => (some e, vm)
  | .ok (a, vm1) => (none, { vm1 with ip := a })

/-- `VM::jmpif`: pop the address, pop the condition; branch iff the
condition equals 1, reporting via the boolean whether the branch was
taken. -/
def VM.jmpif (vm : VM) (dir : Direction) : Except String Bool × VM :=
  match vm.pop dir with
  | .error e => (.error e, vm)
  | .ok (addr, vm1) =>
    match vm1.pop dir with
    | .error e => (.error e, vm1)
    | .ok (cond, vm2) =>
      if cond = 1 then (.ok true, { vm2 with ip := addr })
      else (.ok false, vm2)

/-- `VM::swap`: pop `a`, pop `b`, push `a`, push `b`. -/
def VM.swap (vm : VM) (dir : Direction) : Option String × VM :=
  match vm.pop dir with
  | .error e => (some e, vm)
  | .ok (a, vm1) =>
    match vm1.pop dir with
    | .error e => (some e, vm1)
    | .ok (b, vm2) => (none, (vm2.push dir a).push dir b)

/-- `VM::move_`: pop `a`, push it to the inverted direction's end. -/
def VM.move_ (vm : VM) (dir : Direction) : Option String × VM :=
  match vm.pop dir with
  | .error e => (some e, vm)
  | .ok (a, vm1) => (none, vm1.push dir.invert a)

/-- `VM::over`: pop `a`, pop `b`, push `b`, push `a`, push `b`. -/
def VM.over (vm : VM) (dir : Direction) : Option String × VM :=
  match vm.pop dir with
  | .error e => (some e, vm)
  | .ok (a, vm1) =>
    match vm1.pop dir with
    | .error e => (some e, vm1)
    | .ok (b, vm2) => (none, ((vm2.push dir b).push dir a).push dir b)

/-- `VM::drop`: pop and discard. -/
def VM.drop (vm : VM) (dir : Direction) : Option String × VM :=
  match vm.pop dir with
  | .error e => (some e, vm)
  | .ok (_, vm1) => (none, vm1)

/-- `VM::shr`: pop `a`, pop `b`, push `b >> a`. -/
def VM.shr (vm : VM) (dir : Direction) : Option String × VM :=
  match vm.pop dir with
  | .error e => (some e, vm)
  | .ok (a, vm1) =>
    match vm1.pop dir with
    | .error e => (some e, vm1)
    | .ok (b, vm2) => (none, vm2.push dir (i64Shr b a))

/-- `VM::shl`: pop `a`, pop `b`, push `b << a`. -/
def VM.shl (vm : VM) (dir : Direction) : Option String × VM :=
  match vm.pop dir with
  | .error e => (some e, vm)
  | .ok (a, vm1) =>
    match vm1.pop dir with
    | .error e => (some e, vm1)
    | .ok (b, vm2) => (none, vm2.push dir (i64Shl b a))

/-- `VM::eq`: pop `a`, pop `b`, push `(a == b) as i64`. -/
def VM.eq (vm : VM) (dir : Direction) : Option String × VM :=
  match vm.pop dir with
  | .error e => (some e, vm)
  | .ok (a, vm1) =>
    match vm1.pop dir with
    | .error e => (some e, vm1)
    | .ok (b, vm2) => (none, vm2.push dir (if a = b then 1 else 0))

/-- `VM::or`: pop `a`, pop `b`, push `a | b`. -/
def VM.or (vm : VM) (dir : Direction) : Option String × VM :=
  match vm.pop dir with
  | .error e => (some e, vm)
  | .ok (a, vm1) =>
    match vm1.pop dir with
    | .error e => (some e, vm1)
    | .ok (b, vm2) => (none, vm2.push dir (i64Or a b))

/-- `VM::and`: pop `a`, pop `b`, push `a & b`. -/
def VM.and (vm : VM) (dir : Direction) : Option String × VM :=
  match vm.pop dir with
  | .error e => (some e, vm)
  | .ok (a, vm1) =>
    match vm1.pop dir with
    | .error e => (some e, vm1)
    | .ok (b, vm2) => (none, vm2.push dir (i64And a b))

/-- `VM::xor`: pop `a`, pop `b`, push `a ^ b`. -/
def VM.xor (vm : VM) (dir : Direction) : Option String × VM :=
  match vm.pop dir with
  | .error e => (some e, vm)
  | .ok (a, vm1) =>
    match vm1.pop dir with
    | .error e => (some e, vm1)
    | .ok (b, vm2) => (none, vm2.push dir (i64Xor a b))

/-- `VM::not`: pop `a`, push `!a`. -/
def VM.not (vm : VM) (dir : Direction) : Option String × VM :=
  match vm.pop dir with
  | .error e => (some e, vm)
  | .ok (a, vm1) => (none, vm1.push dir (i64Not a))

/-- `VM::greater`: pop `a`, pop `b`, push `(a > b) as i64`. -/
def VM.greater (vm : VM) (dir : Direction) : Option String × VM :=
  match vm.pop dir with
  | .error e => (some e, vm)
  | .ok (a, vm1) =>
    match vm1.pop dir with
    | .error e => (some e, vm1)
    | .ok (b, vm2) => (none, vm2.push dir (if a > b then 1 else 0))

/-- `VM::less`: pop `a`, pop `b`, push `(a < b) as i64`. -/
def VM.less (vm : VM) (dir : Direction) : Option String × VM :=
  match vm.pop dir with
  | .error e => (some e, vm)
  | .ok (a, vm1) =>
    match vm1.pop dir with
    | .error e => (some e, vm1)
    | .ok (b, vm2) => (none, vm2.push dir (if a < b then 1 else 0))

/-- `VM::greater_eq`: pop `a`, pop `b`, push `(a >= b) as i64`. -/
def VM.greater_eq (vm : VM) (dir : Direction) : Option String × VM :=
  match vm.pop dir with
  | .error e => (some e, vm)
  | .ok (a, vm1) =>
    match vm1.pop dir with
    | .error e => (some e, vm1)
    | .ok (b, vm2) => (none, vm2.push dir (if a ≥ b then 1 else 0))

/-- `VM::less_eq`: pop `a`, pop `b`, push `(a <= b) as i64`. -/
def VM.less_eq (vm : VM) (dir : Direction) : Option String × VM :=
  match vm.pop dir with
  | .error e => (some e, vm)
  | .ok (a, vm1) =>
    match vm1.pop dir with
    | .error e => (some e, vm1)
    | .ok (b, vm2) => (none, vm2.push dir (if a ≤ b then 1 else 0))

/-- `VM::dup`: pop `a`, push it back twice. -/
def VM.dup (vm : VM) (dir : Direction) : Option String × VM :=
  match vm.pop dir with
  | .error e => (some e, vm)
  | .ok (a, vm1) => (none, (vm1.push dir a).push dir a)

/-- `VM::print`: pop `a` and emit its decimal representation as one
stdout line. -/
def VM.print (vm : VM) (dir : Direction) : Option String × VM :=
  match vm.pop dir with
  | .error e => (some e, vm)
  | .ok (a, vm1) => (none, { vm1 with output := vm1.output ++ [toString a] })

/-- `VM::printc`: pop `a`, truncate to one byte (`a as u8`), emit that
character code as one stdout line. -/
def VM.printc (vm : VM) (dir : Direction) : Option String × VM :=
  match vm.pop dir with
  | .error e => (some e, vm)
  | .ok (a, vm1) =>
    (none, { vm1 with output := vm1.output ++ [String.mk [Char.ofNat (a % 256).toNat]] })

/-- `VM::read`: consume one stdin line (empty at EOF), trim it and parse it
as `i64`; push on success, fail otherwise (Rust surfaces the
`ParseIntError` text; the exact message wording is not load-bearing for
any claim). -/
def VM.read (vm : VM) (dir : Direction) : Option String × VM :=
  let line := vm.input.headD ""
  let vm1 : VM := { vm with input := vm.input.tail }
  match parseI64 line.trim with
  | none => (some "invalid digit found in string", vm1)
  | some a => (none, vm1.push dir a)

/-- `VM::readc`: consume one stdin line, push the code of its first
character after trimming (a space when there is none). -/
def VM.readc (vm : VM) (dir : Direction) : Option String × VM :=
  let line := vm.input.headD ""
  let vm1 : VM := { vm with input := vm.input.tail }
  (none, vm1.push dir ((line.trim.data.headD ' ').toNat : Int))

/-- `VM::trace`: emit one stdout line with `*` for each element equal to 1
and a blank otherwise, front to back. -/
def VM.trace (vm : VM) : VM :=
  { vm with
    output := vm.output ++ [String.mk (vm.data.map fun x => if x = 1 then '*' else ' ')] }

/-! The loader (`VM::load_program`). -/

/-- Character-level worker for `tokenize`: `cur` holds the characters of
the token being built, in reverse. -/
def tokenizeChars : List Char → List Char → List String
  | [], [] => []
  | [], cur => [⟨cur.reverse⟩]
  | c :: cs, cur =>
    if c.isWhitespace then
      match cur with
      | [] => tokenizeChars cs []
      | _ => ⟨cur.reverse⟩ :: tokenizeChars cs []
    else tokenizeChars cs (c :: cur)

/-- Model of Rust `str::split_whitespace`: any run of whitespace separates
tokens, and no empty tokens are produced. -/
def tokenize (s : String) : List String :=
  tokenizeChars s.data []

/-- The label-recording pass of `load_program` (the `map` closure over
`enumerate`): for each token ending in `:`, insert the lowercased name
minus the colon at the token's own index.  Insertions prepend, so
`List.lookup` sees the latest insertion first, matching
`HashMap::insert` overwrite semantics. -/
def recordLabels : Nat → List String → List (String × Int) → List (String × Int)
  | _, [], labels => labels
  | addr, t :: ts, labels =>
    recordLabels (addr + 1) ts
      (if strEndsWithChar t ':' then
        (strLowerAscii (strDropLast t), (addr : Int)) :: labels
      else labels)

/-- The instruction-conversion arm of `load_program` (the `filter_map`
closure), tried in source order: leading `!` ⇒ Left, trailing `!` ⇒
Right, trailing `:` ⇒ the `"label"` no-op; anything else is the
`panic!()` arm, modelled as `none`. -/
def tokenToInstruction (t : String) : Option Instruction :=
  if strStartsWithChar t '!' then
    some { op := strDropFirst t, direction := .left }
  else if strEndsWithChar t '!' then
    some { op := strDropLast t, direction := .right }
  else if strEndsWithChar t ':' then
    some { op := "label", direction := .left }
  else
    none

/-- Convert the whole token stream; the first malformed token aborts the
load (Rust reaches `panic!()` there). -/
def tokensToInstructions : List String → Option (List Instruction)
  | [] => some []
  | t :: ts =>
    match tokenToInstruction t with
    | none => none
    | some i =>
      match tokensToInstructions ts with
      | none => none
      | some is => some (i :: is)

/-- `VM::load_program` on the token stream: `none` models the `panic!()`
abort on a malformed token (the Rust function has no error value at all —
its only failure mode is a process abort). -/
def loadProgram (tokens : List String) : Option (List Instruction × List (String × Int)) :=
  match tokensToInstructions tokens with
  | none => none
  | some prog => some (prog, recordLabels 0 tokens [])

/-- Build the VM `main` constructs for a program text: `VM::new()` followed
by `load_program`, with a chosen stdin; `none` when loading aborts. -/
def loadVM (text : String) (stdin : List String) : Option VM :=
  match loadProgram (tokenize text) with
  | none => none
  | some (prog, labels) =>
    some { VM.new with program := prog, labels := labels, input := stdin }

/-! The execution engine (`VM::execute`). -/

/-- Outcome of a run.  `ok`/`err` are the `Ok(())`/`Err(String)` values
`execute` returns; `crash` models a Rust panic (the fetch
`self.program[self.ip as usize]` with a negative `ip` casts to a huge
`usize` — at least `2^63`, beyond any real program's length — and aborts
with an index-out-of-bounds panic); `timeout` only reports exhausted
fuel and corresponds to a still-running loop, never to a Rust outcome. -/
inductive RunResult where
  | ok
  | err (msg : String)
  | crash (msg : String)
  | timeout
deriving DecidableEq, Repr

/-- `VM::execute`, fuel-indexed: while `ip < program.len() as i64`, fetch
`program[ip as usize]`, dispatch on the operation string, then advance
`ip` by one unless the handler performed a taken jump.  The `DEBUG`
trace printing in the source is disabled (`DEBUG = false`) and not
modelled.  Lengths are below `2^63` in any real program, so
`program.len() as i64` is the plain coercion. -/
def execute : Nat → VM → RunResult × VM
  | 0, vm => (.timeout, vm)
  | fuel + 1, vm =>
    if vm.ip < (vm.program.length : Int) then
      if vm.ip < 0 then (.crash "index out of bounds", vm)
      else
        match vm.program.get? vm.ip.toNat with
        | none => (.crash "index out of bounds", vm)
        | some inst =>
          let dir := inst.direction
          match inst.op with
          | "add" =>
            match vm.add dir with
            | (some e, vm1) => (.err e, vm1)
            | (none, vm1) => execute fuel { vm1 with ip := vm1.ip + 1 }
          | "sub" =>
            match vm.sub dir with
            | (some e, vm1) => (.err e, vm1)
            | (none, vm1) => execute fuel { vm1 with ip := vm1.ip + 1 }
          | "swap" =>
            match vm.swap dir with
            | (some e, vm1) => (.err e, vm1)
            | (none, vm1) => execute fuel { vm1 with ip := vm1.ip + 1 }
          | "move" =>
            match vm.move_ dir with
            | (some e, vm1) => (.err e, vm1)
            | (none, vm1) => execute fuel { vm1 with ip := vm1.ip + 1 }
          | "over" =>
            match vm.over dir with
            | (some e, vm1) => (.err e, vm1)
            | (none, vm1) => execute fuel { vm1 with ip := vm1.ip + 1 }
          | "drop" =>
            match vm.drop dir with
            | (some e, vm1) => (.err e, vm1)
            | (none, vm1) => execute fuel { vm1 with ip := vm1.ip + 1 }
          | "shr" =>
            match vm.shr dir with
            | (some e, vm1) => (.err e, vm1)
            | (none, vm1) => execute fuel { vm1 with ip := vm1.ip + 1 }
          | "shl" =>
            match vm.shl dir with
            | (some e, vm1) => (.err e, vm1)
            | (none, vm1) => execute fuel { vm1 with ip := vm1.ip + 1 }
          | "eq" =>
            match vm.eq dir with
            | (some e, vm1) => (.err e, vm1)
            | (none, vm1) => execute fuel { vm1 with ip := vm1.ip + 1 }
          | "or" =>
            match vm.or dir with
            | (some e, vm1) => (.err e, vm1)
            | (none, vm1) => execute fuel { vm1 with ip := vm1.ip + 1 }
          | "and" =>
            match vm.and dir with
            | (some e, vm1) => (.err e, vm1)
            | (none, vm1) => execute fuel { vm1 with ip := vm1.ip + 1 }
          | "xor" =>
            match vm.xor dir with
            | (some e, vm1) => (.err e, vm1)
            | (none, vm1) => execute fuel { vm1 with ip := vm1.ip + 1 }
          | "not" =>
            match vm.not dir with
            | (some e, vm1) => (.err e, vm1)
            | (none, vm1) => execute fuel { vm1 with ip := vm1.ip + 1 }
          | ">" =>
            match vm.greater dir with
            | (some e, vm1) => (.err e, vm1)
            | (none, vm1) => execute fuel { vm1 with ip := vm1.ip + 1 }
          | "<" =>
            match vm.less dir with
            | (some e, vm1) => (.err e, vm1)
            | (none, vm1) => execute fuel { vm1 with ip := vm1.ip + 1 }
          | ">=" =>
            match vm.greater_eq dir with
            | (some e, vm1) => (.err e, vm1)
            | (none, vm1) => execute fuel { vm1 with ip := vm1.ip + 1 }
          | "<=" =>
            match vm.less_eq dir with
            | (some e, vm1) => (.err e, vm1)
            | (none, vm1) => execute fuel { vm1 with ip := vm1.ip + 1 }
          | "dup" =>
            match vm.dup dir with
            | (some e, vm1) => (.err e, vm1)
            | (none, vm1) => execute fuel { vm1 with ip := vm1.ip + 1 }
          | "print" =>
            match vm.print dir with
            | (some e, vm1) => (.err e, vm1)
            | (none, vm1) => execute fuel { vm1 with ip := vm1.ip + 1 }
          | "printc" =>
            match vm.printc dir with
            | (some e, vm1) => (.err e, vm1)
            | (none, vm1) => execute fuel { vm1 with ip := vm1.ip + 1 }
          | "read" =>
            match vm.read dir with
            | (some e, vm1) => (.err e, vm1)
            | (none, vm1) => execute fuel { vm1 with ip := vm1.ip + 1 }
          | "readc" =>
            match vm.readc dir with
            | (some e, vm1) => (.err e, vm1)
            | (none, vm1) => execute fuel { vm1 with ip := vm1.ip + 1 }
          | "trace" =>
            execute fuel { vm.trace with ip := vm.ip + 1 }
          | "jmp" =>
            match vm.jmp dir with
            | (some e, vm1) => (.err e, vm1)
            | (none, vm1) => execute fuel vm1
          | "jmpif" =>
            match vm.jmpif dir with
            | (.error e, vm1) => (.err e, vm1)
            | (.ok true, vm1) => execute fuel vm1
            | (.ok false, vm1) => execute fuel { vm1 with ip := vm1.ip + 1 }
          | "exit" =>
            match vm.pop dir with
            | .error e => (.err e, vm)
            | .ok (code, vm1) =>
              if code ≠ 0 then (.err ("Exit code " ++ toString code), vm1)
              else (.ok, vm1)
          | "label" =>
            execute fuel { vm with ip := vm.ip + 1 }
          | v =>
            match parseI64 v with
            | some val => execute fuel { vm.push dir val with ip := vm.ip + 1 }
            | none =>
              match vm.labels.lookup v with
              | some addr => execute fuel { vm.push dir addr with ip := vm.ip + 1 }
              | none => (.err ("Label " ++ v ++ " does not exist."), vm)
    else
      (.ok, vm)

/-! Auxiliary definitions used by the verification statements. -/

/-- The operation strings `execute` recognizes, in dispatch order; any
other operation string falls through to the operand-push path. -/
def opNames : List String :=
  ["add", "sub", "swap", "move", "over", "drop", "shr", "shl", "eq", "or",
   "and", "xor", "not", ">", "<", ">=", "<=", "dup", "print", "printc",
   "read", "readc", "trace", "jmp", "jmpif", "exit", "label"]

/-- The opcodes that pop at least one value from the data store (everything
except `read`, `readc`, `trace` and `label`; the operand-push path also
pops nothing). -/
def poppingOps : List String :=
  ["add", "sub", "swap", "move", "over", "drop", "shr", "shl", "eq", "or",
   "and", "xor", "not", ">", "<", ">=", "<=", "dup", "print", "printc",
   "jmp", "jmpif", "exit"]

/-- The opcodes that pop two values from the data store. -/
def twoOperandOps : List String :=
  ["add", "sub", "swap", "over", "shr", "shl", "eq", "or", "and", "xor",
   ">", "<", ">=", "<=", "jmpif"]

/-- Spec-side description of the label table's content, following the
amended wording of the claim: the address recorded for key `k` is the
index of the last token that defines a label whose lowercased name (minus
the trailing colon) is `k` — the defining token's own index, not the
following one. -/
def specLabelAddr (k : String) : Nat → List String → Option Int
  | _, [] => none
  | addr, t :: ts =>
    match specLabelAddr k (addr + 1) ts with
    | some i => some i
    | none =>
      if strEndsWithChar t ':' ∧ strLowerAscii (strDropLast t) = k then
        some (addr : Int)
      else none

/-! Helper lemmas. -/

/-- A successful pop leaves the instruction pointer untouched. -/
theorem VM.pop_ip {vm vm' : VM} {dir : Direction} {a : Int}
    (h : vm.pop dir = .ok (a, vm')) : vm'.ip = vm.ip := by
  cases dir <;> simp only [VM.pop] at h
  · cases hd : vm.data <;> rw [hd] at h
    · exact Except.noConfusion h
    · obtain ⟨-, h⟩ := Prod.mk.injEq .. ▸ Except.ok.injEq .. ▸ h
      rw [← h]
  · cases hd : vm.data.reverse <;> rw [hd] at h
    · exact Except.noConfusion h
    · obtain ⟨-, h⟩ := Prod.mk.injEq .. ▸ Except.ok.injEq .. ▸ h
      rw [← h]

/-- C2: the spec claims the instruction pointer can never index the program
out of bounds and that no fetch can panic.  The loop guard `ip < program
length` is a signed comparison, so a `jmp` to a negative address passes it
and the fetch `program[ip as usize]` then aborts with an index-out-of-bounds
panic (modelled as `RunResult.crash`).  The program `!-1 !jmp` pushes `-1`
and jumps to it. -/
theorem c2_negative_jump_crashes :
    (loadVM "!-1 !jmp" []).map (fun vm => (execute 10 vm).1) =
      some (RunResult.crash "index out of bounds") := by
  decide

/-- C4 counterexample: on the malformed token `abc` (no direction marker,
no label marker) the loader reaches Rust's `panic!()` — a process abort
modelled as `none` — rather than returning any recoverable Parse error
value; the loader's Rust signature has no error value at all. -/
theorem c4_counterexample :
    strStartsWithChar "abc" '!' = false ∧ strEndsWithChar "abc" '!' = false ∧
    strEndsWithChar "abc" ':' = false ∧ loadProgram ["abc"] = none := by
  decide

/-- C4 (amended): for every token stream containing a token with no
direction marker and no label marker, loading aborts (Rust `panic!()`,
modelled as `none`) before any execution can begin; the abort is a panic,
not a recoverable Parse error value. -/
theorem c4_malformed_token_aborts_load (tokens : List String) (t : String)
    (hmem : t ∈ tokens)
    (h1 : strStartsWithChar t '!' = false)
    (h2 : strEndsWithChar t '!' = false)
    (h3 : strEndsWithChar t ':' = false) :
    loadProgram tokens = none := by
  have hnone : tokensToInstructions tokens = none := by
    induction tokens with
    | nil => exact absurd hmem (List.not_mem_nil t)
    | cons u us ih =>
      rcases List.mem_cons.mp hmem with rfl | hmem'
      · simp [tokensToInstructions, tokenToInstruction, h1, h2, h3]
      · simp only [tokensToInstructions]
        rw [ih hmem']
        cases tokenToInstruction u <;> rfl
  simp [loadProgram, hnone]

/-- C4 witness: a stream holding the malformed token `abc` fails to load. -/
theorem c4_witness : loadProgram ["!1", "abc"] = none :=
  c4_malformed_token_aborts_load ["!1", "abc"] "abc" (by decide) (by decide)
    (by decide) (by decide)

/-- C5 counterexample: loading `a: !1` records label `a` at index 0 — the
label token's own index — not at index 1, the instruction index
immediately following it as the claim states. -/
theorem c5_counterexample :
    (loadProgram ["a:", "!1"]).map (fun p => List.lookup "a" p.2) =
      some (some 0) ∧ (0 : Int) ≠ 1 := by
  decide

/-- C6 counterexample: the token `!x:` ends with a colon, yet the loader
emits the instruction `{ op := "x:", direction := Left }` — the
leading-`!` rule wins in instruction conversion — while still recording
the label `!x` (lowercased token minus the colon) at the current index.
The emitted operation is not the `"label"` no-op the claim requires. -/
theorem c6_counterexample :
    loadProgram ["!x:"] =
      some ([{ op := "x:", direction := .left }], [("!x", 0)]) ∧
    "x:" ≠ "label" := by
  decide

/-- C6 (amended): every token ending with `:` records the label (token
minus the trailing colon, lowercased) at the current index, but the
emitted instruction is the `"label"` no-op only when the token does not
also start with `!`; a token that starts with `!` and ends with `:` emits
a Left-direction instruction whose operation is the token minus the
leading `!` (the colon retained) — the direction-marker rule takes
precedence in instruction conversion, while label recording always
happens. -/
theorem c6_colon_token_conversion :
    (∀ t : String, strEndsWithChar t ':' = true →
      tokenToInstruction t =
        some (if strStartsWithChar t '!' then
                { op := strDropFirst t, direction := .left }
              else { op := "label", direction := .left })) ∧
    (∀ (addr : Nat) (ts : List String) (acc : List (String × Int)) (t : String),
      strEndsWithChar t ':' = true →
      recordLabels addr (t :: ts) acc =
        recordLabels (addr + 1) ts
          ((strLowerAscii (strDropLast t), (addr : Int)) :: acc)) := by
  constructor
  · intro t h
    have hl : t.data.getLast? = some ':' := by
      simpa [strEndsWithChar] using h
    have hbang : strEndsWithChar t '!' = false := by
      simp [strEndsWithChar, hl]
    cases hs : strStartsWithChar t '!' <;>
      simp [tokenToInstruction, hs, hbang, h]
  · intro addr ts acc t h
    simp [recordLabels, h]

/-- C6 witness: instantiating both parts at the token `a:`. -/
theorem c6_witness :
    tokenToInstruction "a:" =
      some (if strStartsWithChar "a:" '!' then
              { op := strDropFirst "a:", direction := .left }
            else { op := "label", direction := .left }) ∧
    recordLabels 0 ["a:"] [] =
      recordLabels 1 [] [(strLowerAscii (strDropLast "a:"), (0 : Int))] :=
  ⟨c6_colon_token_conversion.1 "a:" (by decide),
   c6_colon_token_conversion.2 0 [] [] "a:" (by decide)⟩

/-- C1 counterexample: with the data store holding `[0, 2]` (front first),
`jmpif` on the Left end pops address `0` and condition `2`; the condition
is nonzero, yet the branch is not taken (the handler reports `false` and
the instruction pointer stays `5`), because the code tests `cond == 1`,
not `cond != 0`. -/
theorem c1_counterexample :
    (VM.jmpif ⟨5, [], [], [0, 2], [], []⟩ Direction.left).1 = Except.ok false ∧
    ¬ (((VM.jmpif ⟨5, [], [], [0, 2], [], []⟩ Direction.left).2.ip = 0)
        ↔ (2 : Int) ≠ 0) :=
  ⟨rfl, by decide⟩

/-- C1 (amended): for every execution of the `jmpif` opcode whose two pops
succeed, the instruction pointer is set to the popped address if and only
if the popped condition value equals 1 (the `== 1` truthy policy, not
`!= 0`); when the branch is not taken, execution falls through to the
next instruction (the pointer advances by one past the `jmpif`). -/
theorem c1_jmpif_branches_iff_cond_is_one (fuel : Nat) (vm vm1 vm2 : VM)
    (dir : Direction) (k : Nat) (addr cond : Int)
    (hip : vm.ip = (k : Int))
    (hfetch : vm.program.get? k = some { op := "jmpif", direction := dir })
    (hpop1 : vm.pop dir = .ok (addr, vm1))
    (hpop2 : vm1.pop dir = .ok (cond, vm2)) :
    execute (fuel + 1) vm =
      execute fuel { vm2 with ip := if cond = 1 then addr else (k : Int) + 1 } := by
  have hk : k < vm.program.length := by
    by_contra hcon
    rw [List.get?_eq_none.mpr (Nat.le_of_not_lt hcon)] at hfetch
    exact Option.noConfusion hfetch
  have hc1 : ((k : Int) < (vm.program.length : Int)) := by exact_mod_cast hk
  have hc2 : ¬ ((k : Int) < 0) := by omega
  have e2 : vm2.ip = vm.ip := (VM.pop_ip hpop2).trans (VM.pop_ip hpop1)
  simp only [execute, hip, Int.toNat_natCast, hfetch]
  rw [if_pos hc1, if_neg hc2]
  simp only [VM.jmpif, hpop1, hpop2]
  by_cases hc : cond = 1
  · simp [hc]
  · simp only [hc, if_neg hc, if_false]
    rw [e2, hip]

/-- C1 witness: a `jmpif` at index 0 with address 3 and condition 1 on the
Left end takes the branch. -/
theorem c1_witness :
    execute 1 ⟨0, [⟨"jmpif", .left⟩], [], [3, 1], [], []⟩ =
      execute 0 ⟨if (1 : Int) = 1 then 3 else ((0 : Nat) : Int) + 1,
        [⟨"jmpif", .left⟩], [], [], [], []⟩ :=
  c1_jmpif_branches_iff_cond_is_one 0
    ⟨0, [⟨"jmpif", .left⟩], [], [3, 1], [], []⟩
    ⟨0, [⟨"jmpif", .left⟩], [], [1], [], []⟩
    ⟨0, [⟨"jmpif", .left⟩], [], [], [], []⟩
    .left 0 3 1 rfl rfl rfl rfl

/-- C8: when `execute` reaches an `exit` opcode and the code pops
successfully, it returns immediately — success for code 0, a failure
carrying the code otherwise — executing no further instructions (the
result does not depend on the remaining fuel or program). -/
theorem c8_exit_terminates_immediately (fuel : Nat) (vm vm1 : VM)
    (dir : Direction) (k : Nat) (code : Int)
    (hip : vm.ip = (k : Int))
    (hfetch : vm.program.get? k = some { op := "exit", direction := dir })
    (hpop : vm.pop dir = .ok (code, vm1)) :
    execute (fuel + 1) vm =
      if code = 0 then (RunResult.ok, vm1)
      else (RunResult.err ("Exit code " ++ toString code), vm1) := by
  have hk : k < vm.program.length := by
    by_contra hcon
    rw [List.get?_eq_none.mpr (Nat.le_of_not_lt hcon)] at hfetch
    exact Option.noConfusion hfetch
  have hc1 : ((k : Int) < (vm.program.length : Int)) := by exact_mod_cast hk
  have hc2 : ¬ ((k : Int) < 0) := by omega
  simp only [execute, hip, Int.toNat_natCast, hfetch]
  rw [if_pos hc1, if_neg hc2, hpop]
  by_cases hc : code = 0 <;> simp [hc]

/-- C8 witness: `exit` with code 3 at index 0 fails carrying the code. -/
theorem c8_witness :
    execute 1 ⟨0, [⟨"exit", .left⟩], [], [3], [], []⟩ =
      if (3 : Int) = 0 then (RunResult.ok, ⟨0, [⟨"exit", .left⟩], [], [], [], []⟩)
      else (RunResult.err ("Exit code " ++ toString (3 : Int)),
        ⟨0, [⟨"exit", .left⟩], [], [], [], []⟩) :=
  c8_exit_terminates_immediately 0
    ⟨0, [⟨"exit", .left⟩], [], [3], [], []⟩
    ⟨0, [⟨"exit", .left⟩], [], [], [], []⟩
    .left 0 3 rfl rfl rfl

/-- C3 counterexample: in the program `loop: !LOOP` the label is defined as
`loop:` and referenced as `LOOP`, differing only in letter case; the
claim says the reference resolves, but execution fails with the
UnknownLabel error, because the reference-site lookup uses the token
verbatim while the table key was lowercased. -/
theorem c3_counterexample :
    (loadVM "loop: !LOOP" []).map (fun vm => (execute 10 vm).1) =
      some (RunResult.err "Label LOOP does not exist.") := by
  decide

/-- C3 (amended): label names are lowercased at the definition site only;
at the reference site the bare token is looked up verbatim
(case-sensitively), so a reference resolves exactly when it is literally
equal to a stored key (the lowercased definition), and otherwise fails
with the UnknownLabel error.  First part: reference resolution is an
exact `List.lookup` of the token.  Second part: every key the loader
stores is the image of a lowercasing. -/
theorem c3_labels_lowercased_at_definition_exact_at_reference :
    (∀ (fuel : Nat) (vm : VM) (dir : Direction) (k : Nat) (v : String),
      vm.ip = (k : Int) →
      vm.program.get? k = some { op := v, direction := dir } →
      v ∉ opNames →
      parseI64 v = none →
      execute (fuel + 1) vm =
        match vm.labels.lookup v with
        | some addr => execute fuel { vm.push dir addr with ip := vm.ip + 1 }
        | none => (RunResult.err ("Label " ++ v ++ " does not exist."), vm)) ∧
    (∀ (tokens : List String) (p : String × Int),
      p ∈ recordLabels 0 tokens [] → ∃ name, p.1 = strLowerAscii name) := by
  constructor
  · intro fuel vm dir k v hip hfetch hv hparse
    have hk : k < vm.program.length := by
      by_contra hcon
      rw [List.get?_eq_none.mpr (Nat.le_of_not_lt hcon)] at hfetch
      exact Option.noConfusion hfetch
    have hc1 : ((k : Int) < (vm.program.length : Int)) := by exact_mod_cast hk
    have hc2 : ¬ ((k : Int) < 0) := by omega
    simp only [execute, hip, Int.toNat_natCast, hfetch]
    rw [if_pos hc1, if_neg hc2]
    simp only [opNames, List.mem_cons, List.not_mem_nil, or_false, not_or] at hv
    split <;> simp_all
  · have key : ∀ (ts : List String) (addr : Nat) (acc : List (String × Int)),
        (∀ p ∈ acc, ∃ name, p.1 = strLowerAscii name) →
        ∀ p ∈ recordLabels addr ts acc, ∃ name, p.1 = strLowerAscii name := by
      intro ts
      induction ts with
      | nil => intro addr acc hacc p hp; exact hacc p hp
      | cons t ts ih =>
        intro addr acc hacc p hp
        simp only [recordLabels] at hp
        by_cases he : strEndsWithChar t ':' = true
        · rw [if_pos he] at hp
          refine ih (addr + 1) _ (fun q hq => ?_) p hp
          rcases List.mem_cons.mp hq with rfl | hq'
          · exact ⟨strDropLast t, rfl⟩
          · exact hacc q hq'
        · rw [if_neg he] at hp
          exact ih (addr + 1) acc hacc p hp
    intro tokens p hp
    exact key tokens 0 [] (by intro q hq; exact absurd hq (List.not_mem_nil q)) p hp

/-- C3 witness: with the table `[("loop", 0)]` the reference token `LOOP`
(not an opcode, not an integer) fails to resolve, and the key `loop` is a
lowercased name. -/
theorem c3_witness :
    execute 1 ⟨0, [⟨"LOOP", .left⟩], [("loop", 0)], [], [], []⟩ =
      (RunResult.err "Label LOOP does not exist.",
        ⟨0, [⟨"LOOP", .left⟩], [("loop", 0)], [], [], []⟩) ∧
    ∃ name, (("loop", (0 : Int)) : String × Int).1 = strLowerAscii name :=
  ⟨c3_labels_lowercased_at_definition_exact_at_reference.1 0
      ⟨0, [⟨"LOOP", .left⟩], [("loop", 0)], [], [], []⟩
      .left 0 "LOOP" rfl rfl (by decide) rfl,
   c3_labels_lowercased_at_definition_exact_at_reference.2 ["loop:"]
      ("loop", 0) (by decide)⟩

/-- Helper for C5: looking a key up in the table built by `recordLabels`
finds the address of the last token defining it, falling back to the
accumulator. -/
theorem recordLabels_lookup (k : String) (ts : List String) :
    ∀ (addr : Nat) (acc : List (String × Int)),
      List.lookup k (recordLabels addr ts acc) =
        match specLabelAddr k addr ts with
        | some i => some i
        | none => List.lookup k acc := by
  induction ts with
  | nil => intro addr acc; rfl
  | cons t ts ih =>
    intro addr acc
    simp only [recordLabels, specLabelAddr]
    by_cases he : strEndsWithChar t ':' = true
    · rw [if_pos he, ih]
      cases hld : specLabelAddr k (addr + 1) ts with
      | some i => rfl
      | none =>
        simp only [List.lookup]
        by_cases hk : strLowerAscii (strDropLast t) = k
        · simp [he, hk]
        · have : (k == strLowerAscii (strDropLast t)) = false := by
            simp [Ne.symm hk]
          simp [this, he, hk]
    · rw [if_neg he, ih]
      have hnot : ¬ (strEndsWithChar t ':' = true ∧
          strLowerAscii (strDropLast t) = k) := fun h => he h.1
      cases specLabelAddr k (addr + 1) ts
      · simp [hnot]
      · rfl

/-- C5 (amended): the label table maps each lowercased label name to the
index of the defining label token itself — the position where the
`"label"` no-op sits, not the instruction index immediately following
it — with the last definition winning when a name is defined twice. -/
theorem c5_label_maps_to_own_index (tokens : List String)
    (prog : List Instruction) (labels : List (String × Int))
    (hload : loadProgram tokens = some (prog, labels)) (k : String) :
    List.lookup k labels = specLabelAddr k 0 tokens := by
  have hlab : labels = recordLabels 0 tokens [] := by
    simp only [loadProgram] at hload
    cases h : tokensToInstructions tokens <;> rw [h] at hload
    · exact Option.noConfusion hload
    · have := Option.some.inj hload
      exact (congrArg Prod.snd this).symm
  rw [hlab, recordLabels_lookup]
  cases specLabelAddr k 0 tokens <;> rfl

/-- C5 witness: the program `x:` maps `x` to index 0, as `specLabelAddr`
prescribes. -/
theorem c5_witness :
    List.lookup "x" [("x", (0 : Int))] = specLabelAddr "x" 0 ["x:"] :=
  c5_label_maps_to_own_index ["x:"] [⟨"label", .left⟩] [("x", 0)] rfl "x"

/-- C7: executing any popping opcode on an empty data store makes
`execute` return the recoverable StackUnderflow error value
(`RunResult.err` with the pop message for the requested end), never the
panic outcome, leaving the machine state intact. -/
theorem c7_pop_on_empty_store_is_recoverable_error (op : String)
    (dir : Direction) (h : op ∈ poppingOps) :
    execute 2 ⟨0, [⟨op, dir⟩], [], [], [], []⟩ =
      (RunResult.err (popErrMsg dir), ⟨0, [⟨op, dir⟩], [], [], [], []⟩) := by
  fin_cases h <;> cases dir <;> rfl

/-- C7 witness: `add` on the Left end of an empty store underflows
recoverably. -/
theorem c7_witness :
    execute 2 ⟨0, [⟨"add", .left⟩], [], [], [], []⟩ =
      (RunResult.err (popErrMsg .left), ⟨0, [⟨"add", .left⟩], [], [], [], []⟩) :=
  c7_pop_on_empty_store_is_recoverable_error "add" .left (by decide)

/-- C9: on a data store with at least two elements, executing `swap` twice
in the same direction succeeds and restores the original store (and the
whole VM state). -/
theorem c9_swap_twice_restores (vm : VM) (dir : Direction)
    (h : 2 ≤ vm.data.length) :
    (vm.swap dir).1 = none ∧ (vm.swap dir).2.swap dir = (none, vm) := by
  obtain ⟨ip, prog, labels, data, inp, out⟩ := vm
  cases dir
  · match data, h with
    | a :: b :: t, _ => exact ⟨rfl, rfl⟩
  · have hrev : 2 ≤ data.reverse.length := by
      rw [List.length_reverse]; exact h
    match hr : data.reverse, hrev with
    | a :: b :: t, _ =>
      have hdata : data = ((a :: b :: t) : List Int).reverse := by
        rw [← hr, List.reverse_reverse]
      subst hdata
      simp [VM.swap, VM.pop, VM.push, List.reverse_reverse, List.reverse_append]

/-- C9 witness: swapping twice on the Right end of `[5, 9]` returns the
store to `[5, 9]`. -/
theorem c9_witness :
    ((⟨0, [], [], [5, 9], [], []⟩ : VM).swap .right).1 = none ∧
    (((⟨0, [], [], [5, 9], [], []⟩ : VM).swap .right).2.swap .right) =
      (none, (⟨0, [], [], [5, 9], [], []⟩ : VM)) :=
  c9_swap_twice_restores ⟨0, [], [], [5, 9], [], []⟩ .right (by decide)

/-- C10: every two-operand opcode run on a store holding exactly one
element returns the underflow error for the requested end and leaves the
store empty — the first popped operand is consumed and not restored on
error. -/
theorem c10_failing_two_operand_op_consumes_first_operand (op : String)
    (dir : Direction) (x : Int) (h : op ∈ twoOperandOps) :
    execute 2 ⟨0, [⟨op, dir⟩], [], [x], [], []⟩ =
      (RunResult.err (popErrMsg dir), ⟨0, [⟨op, dir⟩], [], [], [], []⟩) := by
  fin_cases h <;> cases dir <;> rfl

/-- C10 witness: `sub` on the Right end of the one-element store `[7]`
underflows and leaves the store empty. -/
theorem c10_witness :
    execute 2 ⟨0, [⟨"sub", .right⟩], [], [7], [], []⟩ =
      (RunResult.err (popErrMsg .right), ⟨0, [⟨"sub", .right⟩], [], [], [], []⟩) :=
  c10_failing_two_operand_op_consumes_first_operand "sub" .right 7 (by decide)

end DequeLang
